import Mathlib

/-!
Shallow embedding of the data-ingestion pipeline of `src/app.py`
(Seoul rent-data collector): the count probe `get_total_count`, the
per-window fetcher `fetch_data_async` with its retry loop and inline
client-side filter, the windowed loop `collect_data_sequential`, the
facade `get_all_rent_data`, and the geocoding enrichment loop of `main`
built on `get_coordinates`.

Network nondeterminism is modelled by oracles: a function giving the
outcome of each HTTP attempt.  Machine-level details that no property
here depends on (JSON texts beyond the fields the code inspects,
floating-point parsing of coordinates) are abstracted: a record row
carries only the two fields the code reads plus an opaque tag, and a
geocoding document carries already-parsed integer stand-ins for its
coordinates.
-/

namespace SeoulRent

/-- A raw record row.  The code reads only `row.get('CGG_CD')` and
`row.get('STDG_CD')` (both may be absent, hence `Option`); `tag` stands
for the rest of the payload so that distinct rows can be distinguished. -/
structure Row where
  CGG_CD : Option String
  STDG_CD : Option String
  tag : Nat
deriving DecidableEq, Repr

/-- The filter predicate of the loop at `app.py` lines 152-159: a row is
kept iff it is not dropped by either `continue`.  `gu_code`/`dong_code`
are `some s` for a truthy Python argument whose `str()` is `s`, and
`none` for a falsy one (`None`, `''`).  `row.get('CGG_CD') != str(gu_code)`
compares a possibly-absent field with a string, so an absent field never
equals the filter value. -/
def keepRow (gu_code dong_code : Option String) (row : Row) : Bool :=
  (match gu_code with
   | some g => row.CGG_CD == some g
   | none => true)
  &&
  (match dong_code with
   | some d => row.STDG_CD == some d
   | none => true)

/-- The client-side filtering block of `fetch_data_async` (`app.py`
lines 149-162): `if gu_code or dong_code:` build `filtered_rows` row by
row, else return `rows` unchanged. -/
def applyFilter (rows : List Row) (gu_code dong_code : Option String) : List Row :=
  match gu_code, dong_code with
  | none, none => rows
  | _, _ => rows.filter (keepRow gu_code dong_code)

/-- Shape of a successful (HTTP 200) response body as `fetch_data_async`
classifies it: `rows` when `'tbLnOpendataRentV'` and `'row'` are present,
`resultCode` when the envelope key is present with a `RESULT` block and
no `'row'`, `malformed` otherwise (either the envelope key is absent or
it carries neither `'row'` nor `'RESULT'`; both fall through to the same
`return None, "잘못된 응답 형식"`). -/
inductive Envelope where
  | rows (rs : List Row)
  | resultCode (code msg : String)
  | malformed
deriving DecidableEq, Repr

/-- Outcome of one HTTP attempt inside `fetch_data_async`. -/
inductive AttemptOutcome where
  | http200 (env : Envelope)
  | httpErr (status : Nat)
  | timeout
  | exc (msg : String)
deriving DecidableEq, Repr

/-- The structured "no data" code (`app.py` line 166). -/
def noDataCode : String := "INFO-200"

/-- Classification of one loop iteration of `fetch_data_async`
(`app.py` lines 138-194): `Sum.inl r` means the iteration returns `r`
immediately; `Sum.inr cause` means a retryable failure whose error
message, were this the last attempt, is `cause`. -/
def attemptOutcomeResult (start_idx end_idx : Nat) (gu_code dong_code : Option String)
    (o : AttemptOutcome) : Sum (Option (List Row) × Option String) String :=
  match o with
  | .http200 (.rows rs) => Sum.inl (some (applyFilter rs gu_code dong_code), none)
  | .http200 (.resultCode code msg) =>
      if code == noDataCode then Sum.inl (some [], none)
      else Sum.inr ("API 오류: " ++ code ++ " - " ++ msg)
  | .http200 .malformed => Sum.inl (none, some "잘못된 응답 형식")
  | .httpErr status => Sum.inr ("HTTP 오류: " ++ toString status)
  | .timeout => Sum.inr ("요청 시간 초과 (범위: " ++ toString start_idx ++ "-" ++ toString end_idx ++ ")")
  | .exc m => Sum.inr ("오류 발생: " ++ m)

/-- Result of one call to `fetch_data_async`: the returned pair
`(data, error)`, the number of attempts actually made, and the backoff
sleeps (`await asyncio.sleep(2 ** retry)`) performed, in order. -/
structure FetchRun where
  data : Option (List Row)
  error : Option String
  attempts : Nat
  sleeps : List Nat
deriving DecidableEq, Repr

/-- The `for retry in range(max_retries)` loop of `fetch_data_async`,
indexed by the current `retry` value and the number of iterations
remaining (`max_retries - retry`).  A retryable failure sleeps
`2 ^ retry` and continues when `retry < max_retries - 1` (equivalently,
when more than one iteration remains), else returns the failure's error;
exhausting the range falls through to
`return None, "최대 재시도 횟수 초과"` (`app.py` line 196). -/
def fetchGo (start_idx end_idx : Nat) (gu_code dong_code : Option String)
    (outcomes : Nat → AttemptOutcome) : Nat → Nat → FetchRun
  | retry, 0 => ⟨none, some "최대 재시도 횟수 초과", retry, []⟩
  | retry, remaining + 1 =>
      match attemptOutcomeResult start_idx end_idx gu_code dong_code (outcomes retry) with
      | Sum.inl (d, e) => ⟨d, e, retry + 1, []⟩
      | Sum.inr cause =>
          if remaining = 0 then ⟨none, some cause, retry + 1, []⟩
          else
            let r := fetchGo start_idx end_idx gu_code dong_code outcomes (retry + 1) remaining
            ⟨r.data, r.error, r.attempts, 2 ^ retry :: r.sleeps⟩

/-- `fetch_data_async(session, start_idx, end_idx, gu_code, dong_code,
max_retries)` (`app.py` lines 132-196), with the per-attempt HTTP world
supplied by `outcomes`. -/
def fetch_data_async (start_idx end_idx : Nat) (gu_code dong_code : Option String)
    (outcomes : Nat → AttemptOutcome) (max_retries : Nat) : FetchRun :=
  fetchGo start_idx end_idx gu_code dong_code outcomes 0 max_retries

/-- One loop iteration that returns immediately: any classification
`Sum.inl` ends the loop with one more attempt and no further sleep. -/
lemma fetchGo_inl {s e : Nat} {gu dong : Option String} {outs : Nat → AttemptOutcome}
    {retry : Nat} {d : Option (List Row)} {er : Option String} (m : Nat)
    (h : attemptOutcomeResult s e gu dong (outs retry) = Sum.inl (d, er)) :
    fetchGo s e gu dong outs retry (m + 1) = ⟨d, er, retry + 1, []⟩ := by
  simp [fetchGo, h]

/-- A retryable failure on the last remaining iteration returns its cause. -/
lemma fetchGo_inr_one {s e : Nat} {gu dong : Option String} {outs : Nat → AttemptOutcome}
    {retry : Nat} {c : String}
    (h : attemptOutcomeResult s e gu dong (outs retry) = Sum.inr c) :
    fetchGo s e gu dong outs retry 1 = ⟨none, some c, retry + 1, []⟩ := by
  simp [fetchGo, h]

/-- A retryable failure with more iterations remaining sleeps `2 ^ retry`
and continues with the next attempt. -/
lemma fetchGo_inr_step {s e : Nat} {gu dong : Option String} {outs : Nat → AttemptOutcome}
    {retry : Nat} {c : String} {m : Nat}
    (h : attemptOutcomeResult s e gu dong (outs retry) = Sum.inr c) (hm : m ≠ 0) :
    fetchGo s e gu dong outs retry (m + 1) =
      ⟨(fetchGo s e gu dong outs (retry + 1) m).data,
       (fetchGo s e gu dong outs (retry + 1) m).error,
       (fetchGo s e gu dong outs (retry + 1) m).attempts,
       2 ^ retry :: (fetchGo s e gu dong outs (retry + 1) m).sleeps⟩ := by
  simp [fetchGo, h, hm]

/-- An immediately-returning iteration carries either no error or the
malformed-envelope error. -/
lemma attempt_inl_error {s e : Nat} {gu dong : Option String} {o : AttemptOutcome}
    {d : Option (List Row)} {er : Option String}
    (h : attemptOutcomeResult s e gu dong o = Sum.inl (d, er)) :
    er = none ∨ er = some "잘못된 응답 형식" := by
  cases o with
  | http200 env =>
    cases env with
    | rows rs =>
      simp [attemptOutcomeResult] at h
      exact Or.inl h.2.symm
    | resultCode cd m =>
      rw [attemptOutcomeResult] at h
      split at h
      · simp at h
        exact Or.inl h.2.symm
      · simp at h
    | malformed =>
      simp [attemptOutcomeResult] at h
      exact Or.inr h.2.symm
  | httpErr st => simp [attemptOutcomeResult] at h
  | timeout => simp [attemptOutcomeResult] at h
  | exc m => simp [attemptOutcomeResult] at h

/-- Every retryable-failure cause starts with one of the four message
prefixes built inside the loop. -/
lemma attempt_inr_shape {s e : Nat} {gu dong : Option String} {o : AttemptOutcome} {c : String}
    (h : attemptOutcomeResult s e gu dong o = Sum.inr c) :
    ∃ m, c = "API 오류: " ++ m ∨ c = "HTTP 오류: " ++ m ∨
      c = "요청 시간 초과 (범위: " ++ m ∨ c = "오류 발생: " ++ m := by
  cases o with
  | http200 env =>
    cases env with
    | rows rs => simp [attemptOutcomeResult] at h
    | resultCode cd m =>
      rw [attemptOutcomeResult] at h
      split at h
      · simp at h
      · simp only [Sum.inr.injEq] at h
        exact ⟨cd ++ (" - " ++ m), Or.inl (by rw [← h]; simp [String.append_assoc])⟩
    | malformed => simp [attemptOutcomeResult] at h
  | httpErr st =>
    simp only [attemptOutcomeResult, Sum.inr.injEq] at h
    exact ⟨toString st, Or.inr (Or.inl h.symm)⟩
  | timeout =>
    simp only [attemptOutcomeResult, Sum.inr.injEq] at h
    exact ⟨toString s ++ ("-" ++ (toString e ++ ")")),
      Or.inr (Or.inr (Or.inl (by rw [← h]; simp [String.append_assoc])))⟩
  | exc m =>
    simp only [attemptOutcomeResult, Sum.inr.injEq] at h
    exact ⟨m, Or.inr (Or.inr (Or.inr h.symm))⟩

/-- None of the retryable-failure causes equals the (unreachable)
fall-through message: their first characters differ. -/
lemma cause_ne_fallthrough {c : String}
    (h : ∃ m, c = "API 오류: " ++ m ∨ c = "HTTP 오류: " ++ m ∨
      c = "요청 시간 초과 (범위: " ++ m ∨ c = "오류 발생: " ++ m) :
    c ≠ "최대 재시도 횟수 초과" := by
  obtain ⟨m, h | h | h | h⟩ := h <;> subst h <;>
    · intro h2
      have h3 := congrArg String.data h2
      rw [String.data_append] at h3
      have h4 := congrArg List.head? h3
      rw [List.head?_append] at h4
      simp at h4

/-- Exhaustive description of a 3-attempt `fetch_data_async` run: it ends
at the first attempt classified as an immediate return, or with the third
retryable failure's cause after three attempts; sleeps are `2 ^ i` after
the `i`-th failed attempt. -/
lemma fetch3_cases (s e : Nat) (gu dong : Option String) (outs : Nat → AttemptOutcome) :
    (∃ d er, attemptOutcomeResult s e gu dong (outs 0) = Sum.inl (d, er) ∧
      fetch_data_async s e gu dong outs 3 = ⟨d, er, 1, []⟩) ∨
    (∃ c0 d er, attemptOutcomeResult s e gu dong (outs 0) = Sum.inr c0 ∧
      attemptOutcomeResult s e gu dong (outs 1) = Sum.inl (d, er) ∧
      fetch_data_async s e gu dong outs 3 = ⟨d, er, 2, [1]⟩) ∨
    (∃ c0 c1 d er, attemptOutcomeResult s e gu dong (outs 0) = Sum.inr c0 ∧
      attemptOutcomeResult s e gu dong (outs 1) = Sum.inr c1 ∧
      attemptOutcomeResult s e gu dong (outs 2) = Sum.inl (d, er) ∧
      fetch_data_async s e gu dong outs 3 = ⟨d, er, 3, [1, 2]⟩) ∨
    (∃ c0 c1 c2, attemptOutcomeResult s e gu dong (outs 0) = Sum.inr c0 ∧
      attemptOutcomeResult s e gu dong (outs 1) = Sum.inr c1 ∧
      attemptOutcomeResult s e gu dong (outs 2) = Sum.inr c2 ∧
      fetch_data_async s e gu dong outs 3 = ⟨none, some c2, 3, [1, 2]⟩) := by
  rcases h0 : attemptOutcomeResult s e gu dong (outs 0) with p0 | c0
  · obtain ⟨d0, er0⟩ := p0
    exact Or.inl ⟨d0, er0, rfl, fetchGo_inl 2 h0⟩
  · have step0 : fetch_data_async s e gu dong outs 3 =
        ⟨(fetchGo s e gu dong outs 1 2).data, (fetchGo s e gu dong outs 1 2).error,
         (fetchGo s e gu dong outs 1 2).attempts,
         2 ^ 0 :: (fetchGo s e gu dong outs 1 2).sleeps⟩ :=
      fetchGo_inr_step (m := 2) h0 (by decide)
    rcases h1 : attemptOutcomeResult s e gu dong (outs 1) with p1 | c1
    · obtain ⟨d1, er1⟩ := p1
      refine Or.inr (Or.inl ⟨c0, d1, er1, rfl, rfl, ?_⟩)
      have g1 : fetchGo s e gu dong outs 1 2 = ⟨d1, er1, 2, []⟩ := fetchGo_inl 1 h1
      rw [step0, g1]
      rfl
    · have step1 : fetchGo s e gu dong outs 1 2 =
          ⟨(fetchGo s e gu dong outs 2 1).data, (fetchGo s e gu dong outs 2 1).error,
           (fetchGo s e gu dong outs 2 1).attempts,
           2 ^ 1 :: (fetchGo s e gu dong outs 2 1).sleeps⟩ :=
        fetchGo_inr_step (m := 1) h1 (by decide)
      rcases h2 : attemptOutcomeResult s e gu dong (outs 2) with p2 | c2
      · obtain ⟨d2, er2⟩ := p2
        refine Or.inr (Or.inr (Or.inl ⟨c0, c1, d2, er2, rfl, rfl, rfl, ?_⟩))
        have g2 : fetchGo s e gu dong outs 2 1 = ⟨d2, er2, 3, []⟩ := fetchGo_inl 0 h2
        rw [step0, step1, g2]
        rfl
      · refine Or.inr (Or.inr (Or.inr ⟨c0, c1, c2, rfl, rfl, rfl, ?_⟩))
        have g2 : fetchGo s e gu dong outs 2 1 = ⟨none, some c2, 3, []⟩ := fetchGo_inr_one h2
        rw [step0, step1, g2]
        rfl

/-- Claim C2: for every window, `fetch_data_async` makes at most 3
attempts; after the `i`-th (0-based) failed attempt it sleeps `2 ^ i` and
retries; and on a sequence of retryable failures (non-200 status, timeout,
structured error code other than the no-data code, or a raised exception)
it returns an error value describing the last cause only after the 3rd
consecutive failure, never after fewer. -/
theorem C2_fetch_retry_policy (s e : Nat) (gu dong : Option String)
    (outs : Nat → AttemptOutcome) :
    (fetch_data_async s e gu dong outs 3).attempts ≤ 3 ∧
    (fetch_data_async s e gu dong outs 3).sleeps =
      (List.range ((fetch_data_async s e gu dong outs 3).attempts - 1)).map (fun i => 2 ^ i) ∧
    (∀ c0 c1 c2,
      attemptOutcomeResult s e gu dong (outs 0) = Sum.inr c0 →
      attemptOutcomeResult s e gu dong (outs 1) = Sum.inr c1 →
      attemptOutcomeResult s e gu dong (outs 2) = Sum.inr c2 →
      fetch_data_async s e gu dong outs 3 = ⟨none, some c2, 3, [1, 2]⟩) := by
  rcases fetch3_cases s e gu dong outs with
    ⟨d, er, h0, E⟩ | ⟨c0, d, er, h0, h1, E⟩ | ⟨c0, c1, d, er, h0, h1, h2, E⟩ |
    ⟨c0, c1, c2, h0, h1, h2, E⟩
  · refine ⟨by simp only [E]; decide, by simp only [E]; rfl, ?_⟩
    intro x0 x1 x2 g0 g1 g2
    rw [h0] at g0
    simp at g0
  · refine ⟨by simp only [E]; decide, by simp only [E]; rfl, ?_⟩
    intro x0 x1 x2 g0 g1 g2
    rw [h1] at g1
    simp at g1
  · refine ⟨by simp only [E]; decide, by simp only [E]; rfl, ?_⟩
    intro x0 x1 x2 g0 g1 g2
    rw [h2] at g2
    simp at g2
  · refine ⟨by simp only [E]; decide, by simp only [E]; rfl, ?_⟩
    intro x0 x1 x2 g0 g1 g2
    rw [h2] at g2
    simp only [Sum.inr.injEq] at g2
    rw [E, g2]

/-- Claim C2 witness: three consecutive timeouts on window [1, 100] give
exactly 3 attempts, backoff sleeps 1 and 2, and the last-cause error. -/
theorem C2_fetch_retry_policy_witness :
    fetch_data_async 1 100 none none (fun _ => AttemptOutcome.timeout) 3 =
      ⟨none, some "요청 시간 초과 (범위: 1-100)", 3, [1, 2]⟩ :=
  (C2_fetch_retry_policy 1 100 none none (fun _ => AttemptOutcome.timeout)).2.2
    "요청 시간 초과 (범위: 1-100)" "요청 시간 초과 (범위: 1-100)" "요청 시간 초과 (범위: 1-100)"
    (by decide) (by decide) (by decide)

/-- Claim C9: an HTTP-success envelope carrying the structured no-data
code INFO-200, seen after any number of retryable failures, makes
`fetch_data_async` return an empty record list with no error on that
very attempt, with no further retry. -/
theorem C9_no_data_code (s e k : Nat) (gu dong : Option String)
    (outs : Nat → AttemptOutcome) (msg : String) (hk : k < 3)
    (hfail : ∀ i, i < k → ∃ c, attemptOutcomeResult s e gu dong (outs i) = Sum.inr c)
    (hnd : outs k = AttemptOutcome.http200 (Envelope.resultCode "INFO-200" msg)) :
    fetch_data_async s e gu dong outs 3 =
      ⟨some [], none, k + 1, (List.range k).map (fun i => 2 ^ i)⟩ := by
  have hnk : attemptOutcomeResult s e gu dong (outs k) = Sum.inl (some [], none) := by
    rw [hnd]; rfl
  interval_cases k
  · exact fetchGo_inl 2 hnk
  · obtain ⟨c0, h0⟩ := hfail 0 (by decide)
    have step0 : fetch_data_async s e gu dong outs 3 =
        ⟨(fetchGo s e gu dong outs 1 2).data, (fetchGo s e gu dong outs 1 2).error,
         (fetchGo s e gu dong outs 1 2).attempts,
         2 ^ 0 :: (fetchGo s e gu dong outs 1 2).sleeps⟩ :=
      fetchGo_inr_step (m := 2) h0 (by decide)
    have g1 : fetchGo s e gu dong outs 1 2 = ⟨some [], none, 2, []⟩ := fetchGo_inl 1 hnk
    rw [step0, g1]
    rfl
  · obtain ⟨c0, h0⟩ := hfail 0 (by decide)
    obtain ⟨c1, h1⟩ := hfail 1 (by decide)
    have step0 : fetch_data_async s e gu dong outs 3 =
        ⟨(fetchGo s e gu dong outs 1 2).data, (fetchGo s e gu dong outs 1 2).error,
         (fetchGo s e gu dong outs 1 2).attempts,
         2 ^ 0 :: (fetchGo s e gu dong outs 1 2).sleeps⟩ :=
      fetchGo_inr_step (m := 2) h0 (by decide)
    have step1 : fetchGo s e gu dong outs 1 2 =
        ⟨(fetchGo s e gu dong outs 2 1).data, (fetchGo s e gu dong outs 2 1).error,
         (fetchGo s e gu dong outs 2 1).attempts,
         2 ^ 1 :: (fetchGo s e gu dong outs 2 1).sleeps⟩ :=
      fetchGo_inr_step (m := 1) h1 (by decide)
    have g2 : fetchGo s e gu dong outs 2 1 = ⟨some [], none, 3, []⟩ := fetchGo_inl 0 hnk
    rw [step0, step1, g2]
    rfl

/-- Claim C9 witness: a no-data envelope at the first attempt yields an
empty, error-free result in one attempt with no sleeps. -/
theorem C9_no_data_code_witness :
    fetch_data_async 1 100 none none
      (fun _ => AttemptOutcome.http200 (Envelope.resultCode "INFO-200" "해당하는 데이터가 없습니다.")) 3 =
      ⟨some [], none, 1, []⟩ :=
  C9_no_data_code 1 100 0 none none
    (fun _ => AttemptOutcome.http200 (Envelope.resultCode "INFO-200" "해당하는 데이터가 없습니다."))
    "해당하는 데이터가 없습니다." (by decide) (fun i hi => absurd hi (by omega)) rfl

/-- Claim C10: with 3 retries, every run of `fetch_data_async` produces
its result inside the loop on an attempt of index at most 2; the
fall-through error "최대 재시도 횟수 초과" after the loop is never
returned. -/
theorem C10_fallthrough_unreachable (s e : Nat) (gu dong : Option String)
    (outs : Nat → AttemptOutcome) :
    1 ≤ (fetch_data_async s e gu dong outs 3).attempts ∧
    (fetch_data_async s e gu dong outs 3).attempts ≤ 3 ∧
    (fetch_data_async s e gu dong outs 3).error ≠ some "최대 재시도 횟수 초과" := by
  rcases fetch3_cases s e gu dong outs with
    ⟨d, er, h0, E⟩ | ⟨c0, d, er, h0, h1, E⟩ | ⟨c0, c1, d, er, h0, h1, h2, E⟩ |
    ⟨c0, c1, c2, h0, h1, h2, E⟩
  · refine ⟨by simp only [E]; decide, by simp only [E]; decide, ?_⟩
    simp only [E]
    rcases attempt_inl_error h0 with rfl | rfl
    · simp
    · intro hc
      exact absurd (Option.some.inj hc) (by decide)
  · refine ⟨by simp only [E]; decide, by simp only [E]; decide, ?_⟩
    simp only [E]
    rcases attempt_inl_error h1 with rfl | rfl
    · simp
    · intro hc
      exact absurd (Option.some.inj hc) (by decide)
  · refine ⟨by simp only [E]; decide, by simp only [E]; decide, ?_⟩
    simp only [E]
    rcases attempt_inl_error h2 with rfl | rfl
    · simp
    · intro hc
      exact absurd (Option.some.inj hc) (by decide)
  · refine ⟨by simp only [E]; decide, by simp only [E]; decide, ?_⟩
    simp only [E]
    intro hc
    exact cause_ne_fallthrough (attempt_inr_shape h2) (Option.some.inj hc)

/-- Claim C10 witness: a run fully timing out still ends inside the loop
after 3 attempts. -/
theorem C10_fallthrough_unreachable_witness :
    (fetch_data_async 1 100 none none (fun _ => AttemptOutcome.timeout) 3).attempts ≤ 3 :=
  (C10_fallthrough_unreachable 1 100 none none (fun _ => AttemptOutcome.timeout)).2.1

/-- Claim C7 counterexample: on an HTTP success carrying a `row` list,
`fetch_data_async` does NOT return the records verbatim for every value
of the filter arguments: with a district filter present, a non-matching
row is dropped inside `fetch_data_async` itself. -/
theorem C7_counterexample :
    (fetch_data_async 1 100 (some "999") none
        (fun _ => AttemptOutcome.http200 (Envelope.rows [⟨some "111", some "222", 0⟩])) 3).data ≠
      some [⟨some "111", some "222", 0⟩] := by decide

/-- Claim C7 amended: on an HTTP success whose envelope contains a `row`
list, `fetch_data_async` returns those records with the client-side
filter applied at this layer; they are returned verbatim exactly when
both filter arguments are absent. -/
theorem C7_rows_filtered (s e : Nat) (gu dong : Option String)
    (outs : Nat → AttemptOutcome) (rs : List Row)
    (h : outs 0 = AttemptOutcome.http200 (Envelope.rows rs)) :
    fetch_data_async s e gu dong outs 3 = ⟨some (applyFilter rs gu dong), none, 1, []⟩ ∧
    applyFilter rs none none = rs := by
  constructor
  · exact fetchGo_inl 2 (by rw [h]; rfl)
  · rfl

/-- Claim C7 amended witness: a matching row passes the filter and is
returned on the first attempt. -/
theorem C7_rows_filtered_witness :
    fetch_data_async 1 100 (some "111") none
      (fun _ => AttemptOutcome.http200 (Envelope.rows [⟨some "111", some "222", 0⟩])) 3 =
      ⟨some [⟨some "111", some "222", 0⟩], none, 1, []⟩ :=
  (C7_rows_filtered 1 100 (some "111") none
    (fun _ => AttemptOutcome.http200 (Envelope.rows [⟨some "111", some "222", 0⟩]))
    [⟨some "111", some "222", 0⟩] rfl).1

/-- Claim C4: the client-side filter keeps a record iff its `CGG_CD`
field equals the stringified district code whenever that filter is
present and its `STDG_CD` field equals the stringified sub-district code
whenever that one is (exact string equality); the output is a sublist of
the input (subset preserving relative order), and with both components
absent the output is exactly the unchanged input. -/
theorem C4_client_filter (rows : List Row) (gu dong : Option String) :
    applyFilter rows gu dong = rows.filter (keepRow gu dong) ∧
    (∀ row : Row, keepRow gu dong row = true ↔
      ((∀ g, gu = some g → row.CGG_CD = some g) ∧
       (∀ d, dong = some d → row.STDG_CD = some d))) ∧
    (applyFilter rows gu dong).Sublist rows ∧
    applyFilter rows none none = rows := by
  refine ⟨?_, ?_, ?_, rfl⟩
  · cases gu <;> cases dong
    · exact (List.filter_eq_self.mpr (fun a _ => rfl)).symm
    · rfl
    · rfl
    · rfl
  · intro row
    cases gu <;> cases dong <;> simp [keepRow]
  · cases gu <;> cases dong
    · exact List.Sublist.refl rows
    all_goals exact List.filter_sublist rows

/-- Claim C4 witness: a concrete row matching a present district filter
is kept. -/
theorem C4_client_filter_witness :
    keepRow (some "11") none ⟨some "11", none, 0⟩ = true :=
  ((C4_client_filter [] (some "11") none).2.1 ⟨some "11", none, 0⟩).mpr
    ⟨fun g hg => by cases hg; rfl, fun d hd => by cases hd⟩

example :
    fetch_data_async 1 100 none none (fun _ => AttemptOutcome.timeout) 3 =
      ⟨none, some "요청 시간 초과 (범위: 1-100)", 3, [1, 2]⟩ := by decide

example :
    fetch_data_async 1 100 none none
      (fun _ => AttemptOutcome.http200 (Envelope.resultCode "INFO-200" "x")) 3 =
      ⟨some [], none, 1, []⟩ := by decide

example :
    fetch_data_async 1 100 (some "999") none
      (fun _ => AttemptOutcome.http200 (Envelope.rows [⟨some "111", some "222", 0⟩])) 3 =
      ⟨some [], none, 1, []⟩ := by decide

/-- `batch_size = 100` (`app.py` line 202). -/
def batch_size : Nat := 100

/-- One invocation of the `progress_callback` of
`collect_data_sequential`: a plain progress report before each fetch
(line 213) or a warning-carrying report after a failed window
(line 226). -/
inductive Event where
  | progress (s e total collected : Nat)
  | warning (s e total collected : Nat) (msg : String)
deriving DecidableEq, Repr

/-- The warning text of `app.py` line 231. -/
def warnMsg (s e : Nat) (err : String) : String :=
  "⚠️ 범위 " ++ toString s ++ "-" ++ toString e ++ " 조회 실패: " ++ err

/-- The `while current_idx <= total_count` loop of
`collect_data_sequential` (`app.py` lines 209-245), with `fetch` giving
each window's `(data, error)` pair and the emitted callback events
accumulated in order.  The first `Nat` argument is fuel bounding the
number of iterations; each iteration strictly advances `current_idx`, so
`total + 1` units never run out (`collectGo_stable`). -/
def collectGo (fetch : Nat → Nat → Option (List Row) × Option String) (total : Nat) :
    Nat → Nat → List Row → List Event → List Row × List Event
  | 0, _, acc, evs => (acc, evs)
  | fuel + 1, current, acc, evs =>
    if current ≤ total then
      let e := min (current + batch_size - 1) total
      let evs2 := evs ++ [Event.progress current e total acc.length]
      match fetch current e with
      | (_, some msg) =>
          collectGo fetch total fuel (e + 1) acc
            (evs2 ++ [Event.warning current e total acc.length (warnMsg current e msg)])
      | (some rs, none) => collectGo fetch total fuel (e + 1) (acc ++ rs) evs2
      | (none, none) => collectGo fetch total fuel (e + 1) acc evs2
    else (acc, evs)

/-- `collect_data_sequential(total_count, gu_code, dong_code,
progress_callback)` (`app.py` lines 199-247): each window is fetched
through `fetch_data_async` with default `max_retries = 3`; `world s e`
is the per-attempt outcome oracle of the window starting at `s`. -/
def collect_data_sequential (total : Nat) (gu dong : Option String)
    (world : Nat → Nat → Nat → AttemptOutcome) : List Row × List Event :=
  collectGo
    (fun s e =>
      ((fetch_data_async s e gu dong (world s e) 3).data,
       (fetch_data_async s e gu dong (world s e) 3).error))
    total (total + 1) 1 [] []

/-- The sequence of windows the collector loop iterates over: the same
index arithmetic as `collectGo`, with the same fuel discipline. -/
def windowsGo : Nat → Nat → Nat → List (Nat × Nat)
  | 0, _, _ => []
  | fuel + 1, current, total =>
    if current ≤ total then
      let e := min (current + batch_size - 1) total
      (current, e) :: windowsGo fuel (e + 1) total
    else []

/-- The windows `[1, totalCount]` is split into. -/
def windows (total : Nat) : List (Nat × Nat) := windowsGo (total + 1) 1 total

/-- The windows announced by the plain (pre-fetch) progress events, in
emission order. -/
def visitedWindows (evs : List Event) : List (Nat × Nat) :=
  evs.filterMap (fun ev => match ev with
    | Event.progress s e _ _ => some (s, e)
    | Event.warning _ _ _ _ _ => none)

/-- The records one window contributes to the accumulator: none on a
window error, the fetched data otherwise. -/
def windowData (fetch : Nat → Nat → Option (List Row) × Option String)
    (w : Nat × Nat) : List Row :=
  match fetch w.1 w.2 with
  | (_, some _) => []
  | (some rs, none) => rs
  | (none, none) => []

lemma windowsGo_length (fuel : Nat) : ∀ current total : Nat,
    total + 1 - current ≤ fuel →
    (windowsGo fuel current total).length = (total + 1 - current + 99) / 100 := by
  induction fuel with
  | zero =>
    intro c t h
    simp only [windowsGo, List.length_nil]
    omega
  | succ n ih =>
    intro c t h
    by_cases hc : c ≤ t
    · simp only [windowsGo, if_pos hc, List.length_cons]
      rw [ih (min (c + batch_size - 1) t + 1) t (by simp only [batch_size] at *; omega)]
      simp only [batch_size] at *
      omega
    · simp only [windowsGo, if_neg hc, List.length_nil]
      omega

lemma windowsGo_mem (fuel : Nat) : ∀ current total : Nat, ∀ w ∈ windowsGo fuel current total,
    current ≤ w.1 ∧ w.1 ≤ w.2 ∧ w.2 ≤ total ∧ w.2 = min (w.1 + batch_size - 1) total := by
  induction fuel with
  | zero => intro c t w hw; simp [windowsGo] at hw
  | succ n ih =>
    intro c t w hw
    by_cases hc : c ≤ t
    · simp only [windowsGo, if_pos hc, List.mem_cons] at hw
      rcases hw with rfl | hw
      · refine ⟨le_refl c, ?_, ?_, rfl⟩ <;> simp only [batch_size] <;> omega
      · obtain ⟨h1, h2, h3, h4⟩ := ih (min (c + batch_size - 1) t + 1) t w hw
        exact ⟨by omega, h2, h3, h4⟩
    · simp [windowsGo, if_neg hc] at hw

lemma windowsGo_pairwise (fuel : Nat) : ∀ current total : Nat,
    (windowsGo fuel current total).Pairwise (fun a b => a.2 < b.1) := by
  induction fuel with
  | zero => intro c t; simp [windowsGo]
  | succ n ih =>
    intro c t
    by_cases hc : c ≤ t
    · simp only [windowsGo, if_pos hc]
      refine List.Pairwise.cons ?_ (ih (min (c + batch_size - 1) t + 1) t)
      intro b hb
      have := (windowsGo_mem n (min (c + batch_size - 1) t + 1) t b hb).1
      omega
    · simp [windowsGo, if_neg hc]

lemma windowsGo_cover (fuel : Nat) : ∀ current total : Nat,
    total + 1 - current ≤ fuel → ∀ n : Nat,
    (current ≤ n ∧ n ≤ total) ↔ ∃ w ∈ windowsGo fuel current total, w.1 ≤ n ∧ n ≤ w.2 := by
  induction fuel with
  | zero =>
    intro c t h n
    constructor
    · intro hn; omega
    · rintro ⟨w, hw, _⟩
      simp [windowsGo] at hw
  | succ m ih =>
    intro c t h n
    by_cases hc : c ≤ t
    · have ihe := ih (min (c + batch_size - 1) t + 1) t (by simp only [batch_size] at *; omega) n
      simp only [windowsGo, if_pos hc, List.mem_cons]
      constructor
      · intro hn
        by_cases hne : n ≤ min (c + batch_size - 1) t
        · exact ⟨(c, min (c + batch_size - 1) t), Or.inl rfl, hn.1, hne⟩
        · obtain ⟨w, hw, hwn⟩ := ihe.mp (by simp only [batch_size] at *; omega)
          exact ⟨w, Or.inr hw, hwn⟩
      · rintro ⟨w, hw | hw, hwn⟩
        · subst hw
          simp only [batch_size] at hwn ⊢
          omega
        · have := ihe.mpr ⟨w, hw, hwn⟩
          omega
    · constructor
      · intro hn; omega
      · rintro ⟨w, hw, _⟩
        simp [windowsGo, if_neg hc] at hw

lemma collectGo_visited (fetch : Nat → Nat → Option (List Row) × Option String) (total : Nat)
    (fuel : Nat) : ∀ (current : Nat) (acc : List Row) (evs : List Event),
    visitedWindows (collectGo fetch total fuel current acc evs).2 =
      visitedWindows evs ++ windowsGo fuel current total := by
  induction fuel with
  | zero => intro c acc evs; simp [collectGo, windowsGo]
  | succ n ih =>
    intro c acc evs
    by_cases hc : c ≤ total
    · rcases hf : fetch c (min (c + batch_size - 1) total) with ⟨d, oerr⟩
      rcases oerr with _ | msg
      · rcases d with _ | rs
        · simp only [collectGo, if_pos hc, hf]
          rw [ih]
          simp [visitedWindows, windowsGo, if_pos hc]
        · simp only [collectGo, if_pos hc, hf]
          rw [ih]
          simp [visitedWindows, windowsGo, if_pos hc]
      · simp only [collectGo, if_pos hc, hf]
        rw [ih]
        simp [visitedWindows, windowsGo, if_pos hc]
    · simp [collectGo, windowsGo, if_neg hc]

lemma collectGo_records (fetch : Nat → Nat → Option (List Row) × Option String) (total : Nat)
    (fuel : Nat) : ∀ (current : Nat) (acc : List Row) (evs : List Event),
    (collectGo fetch total fuel current acc evs).1 =
      acc ++ ((windowsGo fuel current total).map (windowData fetch)).flatten := by
  induction fuel with
  | zero => intro c acc evs; simp [collectGo, windowsGo]
  | succ n ih =>
    intro c acc evs
    by_cases hc : c ≤ total
    · rcases hf : fetch c (min (c + batch_size - 1) total) with ⟨d, oerr⟩
      rcases oerr with _ | msg
      · rcases d with _ | rs
        · simp only [collectGo, if_pos hc, hf]
          rw [ih]
          simp [windowsGo, if_pos hc, windowData, hf]
        · simp only [collectGo, if_pos hc, hf]
          rw [ih]
          simp [windowsGo, if_pos hc, windowData, hf]
      · simp only [collectGo, if_pos hc, hf]
        rw [ih]
        simp [windowsGo, if_pos hc, windowData, hf]
    · simp [collectGo, windowsGo, if_neg hc]

lemma collectGo_stable (fetch : Nat → Nat → Option (List Row) × Option String) (total : Nat)
    (f1 : Nat) : ∀ (f2 current : Nat) (acc : List Row) (evs : List Event),
    total + 1 - current ≤ f1 → total + 1 - current ≤ f2 →
    collectGo fetch total f1 current acc evs = collectGo fetch total f2 current acc evs := by
  induction f1 with
  | zero =>
    intro f2 c acc evs h1 h2
    have hc : ¬ c ≤ total := by omega
    cases f2 with
    | zero => rfl
    | succ m => simp [collectGo, if_neg hc]
  | succ n ih =>
    intro f2 c acc evs h1 h2
    by_cases hc : c ≤ total
    · cases f2 with
      | zero => omega
      | succ m =>
        rcases hf : fetch c (min (c + batch_size - 1) total) with ⟨d, oerr⟩
        have hrec : total + 1 - (min (c + batch_size - 1) total + 1) ≤ n ∧
            total + 1 - (min (c + batch_size - 1) total + 1) ≤ m := by
          simp only [batch_size] at *
          omega
        rcases oerr with _ | msg
        · rcases d with _ | rs
          · simp only [collectGo, if_pos hc, hf]
            exact ih m (min (c + batch_size - 1) total + 1) acc _ hrec.1 hrec.2
          · simp only [collectGo, if_pos hc, hf]
            exact ih m (min (c + batch_size - 1) total + 1) (acc ++ rs) _ hrec.1 hrec.2
        · simp only [collectGo, if_pos hc, hf]
          exact ih m (min (c + batch_size - 1) total + 1) acc _ hrec.1 hrec.2
    · cases f2 with
      | zero => simp [collectGo, if_neg hc]
      | succ m => simp [collectGo, if_neg hc]

/-- Claim C1: for every totalCount, the collector loop iterates over
exactly `ceil(totalCount/100)` windows; each window is a contiguous
inclusive 1-based range of size 100 clipped to totalCount; the windows
are pairwise disjoint, in strictly increasing offset order, and cover
`[1, totalCount]` with no gaps or overlaps; every window is visited
exactly once regardless of per-window failures; and the loop terminates
(its result is stable under any sufficient iteration budget). -/
theorem C1_windows (total : Nat) :
    (windows total).length = (total + 99) / 100 ∧
    (∀ w ∈ windows total, 1 ≤ w.1 ∧ w.1 ≤ w.2 ∧ w.2 = min (w.1 + batch_size - 1) total) ∧
    (windows total).Pairwise (fun a b => a.2 < b.1) ∧
    (∀ n : Nat, (1 ≤ n ∧ n ≤ total) ↔ ∃ w ∈ windows total, w.1 ≤ n ∧ n ≤ w.2) ∧
    (∀ (gu dong : Option String) (world : Nat → Nat → Nat → AttemptOutcome),
      visitedWindows (collect_data_sequential total gu dong world).2 = windows total) ∧
    (∀ fuel : Nat, total + 1 ≤ fuel →
      ∀ (gu dong : Option String) (world : Nat → Nat → Nat → AttemptOutcome),
      collectGo
        (fun s e => ((fetch_data_async s e gu dong (world s e) 3).data,
                     (fetch_data_async s e gu dong (world s e) 3).error))
        total fuel 1 [] [] = collect_data_sequential total gu dong world) := by
  refine ⟨?_, ?_, ?_, ?_, ?_, ?_⟩
  · rw [windows, windowsGo_length (total + 1) 1 total (by omega)]
    omega
  · intro w hw
    obtain ⟨h1, h2, h3, h4⟩ := windowsGo_mem (total + 1) 1 total w hw
    exact ⟨h1, h2, h4⟩
  · exact windowsGo_pairwise (total + 1) 1 total
  · exact windowsGo_cover (total + 1) 1 total (by omega)
  · intro gu dong world
    rw [collect_data_sequential, collectGo_visited]
    rfl
  · intro fuel hf gu dong world
    exact collectGo_stable _ total fuel (total + 1) 1 [] [] (by omega) (by omega)

/-- Claim C1 witness: every offset in `[1, 250]` lies in some window of
`windows 250`. -/
theorem C1_windows_witness : ∃ w ∈ windows 250, w.1 ≤ 250 ∧ 250 ≤ w.2 :=
  ((C1_windows 250).2.2.2.1 250).mp (by decide)

/-- Claim C5: when a window's fetch returns an error, the collector adds
no records for that window, emits the pre-fetch progress event and then
exactly one warning event carrying the window's bounds, advances past the
window without retrying at this layer, and continues; concretely, with
totalCount = 200 and window [101, 200] timing out on all 3 attempts, the
run returns only the rows of window [1, 100] plus one warning event for
[101, 200] and is not aborted. -/
theorem C5_window_failure :
    (∀ (fetch : Nat → Nat → Option (List Row) × Option String)
       (total fuel current : Nat) (acc : List Row) (evs : List Event)
       (d : Option (List Row)) (msg : String),
      current ≤ total →
      fetch current (min (current + batch_size - 1) total) = (d, some msg) →
      collectGo fetch total (fuel + 1) current acc evs =
        collectGo fetch total fuel (min (current + batch_size - 1) total + 1) acc
          ((evs ++ [Event.progress current (min (current + batch_size - 1) total) total
              acc.length]) ++
           [Event.warning current (min (current + batch_size - 1) total) total acc.length
             (warnMsg current (min (current + batch_size - 1) total) msg)])) ∧
    (∀ rs : List Row,
      collect_data_sequential 200 none none
        (fun s _ => fun _ => if s = 1 then AttemptOutcome.http200 (Envelope.rows rs)
                    else AttemptOutcome.timeout) =
      (rs, [Event.progress 1 100 200 0,
            Event.progress 101 200 200 rs.length,
            Event.warning 101 200 200 rs.length
              (warnMsg 101 200 "요청 시간 초과 (범위: 101-200)")])) := by
  constructor
  · intro fetch total fuel current acc evs d msg h1 h2
    simp only [collectGo, if_pos h1, h2]
  · intro rs
    rfl

/-- Claim C5 witness: the failing-window scenario evaluated at an empty
first-window payload. -/
theorem C5_window_failure_witness :
    collect_data_sequential 200 none none
      (fun s _ => fun _ => if s = 1 then AttemptOutcome.http200 (Envelope.rows [])
                  else AttemptOutcome.timeout) =
      ([], [Event.progress 1 100 200 0, Event.progress 101 200 200 0,
            Event.warning 101 200 200 0
              "⚠️ 범위 101-200 조회 실패: 요청 시간 초과 (범위: 101-200)"]) :=
  C5_window_failure.2 []

/-- Shape of a successful (HTTP 200) response body as `get_total_count`
classifies it (`app.py` lines 101-122): `totalCount` when the envelope
key and `list_total_count` are present (the sample rows are only
printed), `resultCode` when a `RESULT` block is present without a count,
`malformed` otherwise (`d` stands for the payload dump interpolated into
the error message). -/
inductive CountEnvelope where
  | totalCount (n : Nat) (rs : List Row)
  | resultCode (code msg : String)
  | malformed (d : String)
deriving DecidableEq, Repr

/-- Outcome of one HTTP attempt inside `get_total_count`. -/
inductive CountOutcome where
  | http200 (env : CountEnvelope)
  | httpErr (status : Nat)
  | timeout
  | exc (msg : String)
deriving DecidableEq, Repr

/-- `get_total_count(gu_code, dong_code)` (`app.py` lines 87-129): one
single HTTP request, classified into a `(count, error)` pair.  `outs`
gives the outcome the network would produce for the `i`-th attempt, were
one made; the function issues no loop, so only `outs 0` is consulted. -/
def get_total_count (outs : Nat → CountOutcome) : Option Nat × Option String :=
  match outs 0 with
  | .http200 (.totalCount n _) => (some n, none)
  | .http200 (.resultCode c m) => (none, some ("API 오류: " ++ c ++ " - " ++ m))
  | .http200 (.malformed d) => (none, some ("잘못된 응답 형식: " ++ d))
  | .httpErr st => (none, some ("HTTP 오류: " ++ toString st))
  | .timeout => (none, some "요청 시간 초과")
  | .exc m => (none, some ("오류 발생: " ++ m))

/-- Claim C8 counterexample: `get_total_count` does not retry transient
transport errors: with a timeout at attempt 0 and a successful count
available at attempt 1, it returns the timeout error immediately instead
of retrying and obtaining the count. -/
theorem C8_counterexample :
    get_total_count
      (fun i => if i = 0 then CountOutcome.timeout
                else CountOutcome.http200 (CountEnvelope.totalCount 500 [])) =
      (none, some "요청 시간 초과") := rfl

/-- Claim C8 amended: CountProbe makes exactly one attempt — its result
depends only on the first attempt's outcome — and demotes any transient
transport error (timeout, non-200 status, connection failure) to a
run-scoped reported error value immediately, with no retry and no
backoff. -/
theorem C8_probe_single_attempt (outs outs2 : Nat → CountOutcome) (h : outs 0 = outs2 0) :
    get_total_count outs = get_total_count outs2 ∧
    (outs 0 = CountOutcome.timeout →
      get_total_count outs = (none, some "요청 시간 초과")) ∧
    (∀ st, outs 0 = CountOutcome.httpErr st →
      get_total_count outs = (none, some ("HTTP 오류: " ++ toString st))) ∧
    (∀ m, outs 0 = CountOutcome.exc m →
      get_total_count outs = (none, some ("오류 발생: " ++ m))) := by
  refine ⟨by simp only [get_total_count, h], ?_, ?_, ?_⟩
  · intro h0
    simp only [get_total_count, h0]
  · intro st h0
    simp only [get_total_count, h0]
  · intro m h0
    simp only [get_total_count, h0]

/-- Claim C8 amended witness: a first-attempt timeout is reported
directly as the run-scoped timeout error. -/
theorem C8_probe_single_attempt_witness :
    get_total_count (fun _ => CountOutcome.timeout) = (none, some "요청 시간 초과") :=
  (C8_probe_single_attempt (fun _ => CountOutcome.timeout) (fun _ => CountOutcome.timeout)
    rfl).2.1 rfl

/-- `get_all_rent_data(gu_code, dong_code, progress_callback)`
(`app.py` lines 250-277): probe the total count; on a probe error return
it; on a falsy/zero count return the zero-count message; otherwise
collect and return either the rows or, if nothing was collected, the
collection-failure message.  (The caller wraps the rows in a DataFrame;
the record list itself is returned here.) -/
def get_all_rent_data (probeWorld : Nat → CountOutcome) (gu dong : Option String)
    (world : Nat → Nat → Nat → AttemptOutcome) : Option (List Row) × Option String :=
  match get_total_count probeWorld with
  | (_, some err) => (none, some err)
  | (none, none) => (none, some "조회된 데이터가 없습니다.")
  | (some 0, none) => (none, some "조회된 데이터가 없습니다.")
  | (some (t + 1), none) =>
      if (collect_data_sequential (t + 1) gu dong world).1.isEmpty then
        (none, some "데이터 수집 실패")
      else (some (collect_data_sequential (t + 1) gu dong world).1, none)

/-- Claim C3: the facade never returns a record set and an error
simultaneously; a probe error is returned immediately and a zero/absent
count yields the zero-count error, in both cases without invoking the
collector (the result is the same under any collection world); an empty
collected list yields the distinct "no data collected" error; a
non-empty collected list is returned with no error. -/
theorem C3_facade (probeWorld : Nat → CountOutcome) (gu dong : Option String)
    (world world2 : Nat → Nat → Nat → AttemptOutcome) :
    (¬((get_all_rent_data probeWorld gu dong world).1.isSome = true ∧
       (get_all_rent_data probeWorld gu dong world).2.isSome = true)) ∧
    (∀ err, (get_total_count probeWorld).2 = some err →
      get_all_rent_data probeWorld gu dong world = (none, some err) ∧
      get_all_rent_data probeWorld gu dong world2 = (none, some err)) ∧
    ((get_total_count probeWorld).2 = none →
      ((get_total_count probeWorld).1 = none ∨ (get_total_count probeWorld).1 = some 0) →
      get_all_rent_data probeWorld gu dong world = (none, some "조회된 데이터가 없습니다.") ∧
      get_all_rent_data probeWorld gu dong world2 = (none, some "조회된 데이터가 없습니다.")) ∧
    (∀ t, get_total_count probeWorld = (some t, none) → t ≠ 0 →
      (collect_data_sequential t gu dong world).1 = [] →
      get_all_rent_data probeWorld gu dong world = (none, some "데이터 수집 실패")) ∧
    (∀ t, get_total_count probeWorld = (some t, none) → t ≠ 0 →
      (collect_data_sequential t gu dong world).1 ≠ [] →
      get_all_rent_data probeWorld gu dong world =
        (some (collect_data_sequential t gu dong world).1, none)) ∧
    ("데이터 수집 실패" : String) ≠ "조회된 데이터가 없습니다." := by
  rcases hp : get_total_count probeWorld with ⟨cnt, err⟩
  rcases err with _ | err0
  · rcases cnt with _ | t
    · have E1 : get_all_rent_data probeWorld gu dong world =
          (none, some "조회된 데이터가 없습니다.") := by
        simp only [get_all_rent_data, hp]
      have E2 : get_all_rent_data probeWorld gu dong world2 =
          (none, some "조회된 데이터가 없습니다.") := by
        simp only [get_all_rent_data, hp]
      refine ⟨by rw [E1]; simp, ?_, fun _ _ => ⟨E1, E2⟩, ?_, ?_, by decide⟩
      · intro e2 he2
        simp at he2
      · intro t2 ht2
        simp at ht2
      · intro t2 ht2
        simp at ht2
    · rcases t with _ | t
      · have E1 : get_all_rent_data probeWorld gu dong world =
            (none, some "조회된 데이터가 없습니다.") := by
          simp only [get_all_rent_data, hp]
        have E2 : get_all_rent_data probeWorld gu dong world2 =
            (none, some "조회된 데이터가 없습니다.") := by
          simp only [get_all_rent_data, hp]
        refine ⟨by rw [E1]; simp, ?_, fun _ _ => ⟨E1, E2⟩, ?_, ?_, by decide⟩
        · intro e2 he2
          simp at he2
        · intro t2 ht2 hne _
          simp only [Prod.mk.injEq, Option.some.injEq] at ht2
          omega
        · intro t2 ht2 hne _
          simp only [Prod.mk.injEq, Option.some.injEq] at ht2
          omega
      · by_cases hemp : (collect_data_sequential (t + 1) gu dong world).1.isEmpty
        · have E1 : get_all_rent_data probeWorld gu dong world =
              (none, some "데이터 수집 실패") := by
            simp only [get_all_rent_data, hp, if_pos hemp]
          refine ⟨by rw [E1]; simp, ?_, ?_, ?_, ?_, by decide⟩
          · intro e2 he2
            simp at he2
          · intro _ hz
            simp at hz
          · intro t2 ht2 hne hnil
            simp only [Prod.mk.injEq, Option.some.injEq] at ht2
            obtain ⟨rfl, -⟩ := ht2
            exact E1
          · intro t2 ht2 hne hnn
            simp only [Prod.mk.injEq, Option.some.injEq] at ht2
            obtain ⟨rfl, -⟩ := ht2
            exact absurd (List.isEmpty_iff.mp hemp) hnn
        · have E1 : get_all_rent_data probeWorld gu dong world =
              (some (collect_data_sequential (t + 1) gu dong world).1, none) := by
            simp only [get_all_rent_data, hp, if_neg hemp]
          refine ⟨by rw [E1]; simp, ?_, ?_, ?_, ?_, by decide⟩
          · intro e2 he2
            simp at he2
          · intro _ hz
            simp at hz
          · intro t2 ht2 hne hnil
            simp only [Prod.mk.injEq, Option.some.injEq] at ht2
            obtain ⟨rfl, -⟩ := ht2
            exact absurd (List.isEmpty_iff.mpr hnil) hemp
          · intro t2 ht2 hne hnn
            simp only [Prod.mk.injEq, Option.some.injEq] at ht2
            obtain ⟨rfl, -⟩ := ht2
            exact E1
  · have E1 : get_all_rent_data probeWorld gu dong world = (none, some err0) := by
      simp only [get_all_rent_data, hp]
    have E2 : get_all_rent_data probeWorld gu dong world2 = (none, some err0) := by
      simp only [get_all_rent_data, hp]
    refine ⟨by rw [E1]; simp, ?_, ?_, ?_, ?_, by decide⟩
    · intro e2 he2
      simp only [Option.some.injEq] at he2
      subst he2
      exact ⟨E1, E2⟩
    · intro hz
      simp at hz
    · intro t2 ht2
      simp at ht2
    · intro t2 ht2
      simp at ht2

/-- Claim C3 witness: a zero total count is reported as the zero-count
error. -/
theorem C3_facade_witness :
    get_all_rent_data (fun _ => CountOutcome.http200 (CountEnvelope.totalCount 0 []))
      none none (fun _ _ _ => AttemptOutcome.timeout) =
      (none, some "조회된 데이터가 없습니다.") :=
  ((C3_facade (fun _ => CountOutcome.http200 (CountEnvelope.totalCount 0 []))
      none none (fun _ _ _ => AttemptOutcome.timeout)
      (fun _ _ _ => AttemptOutcome.timeout)).2.2.1 rfl (Or.inr rfl)).1

/-- Outcome of the single geocoding HTTP call of `get_coordinates`
(`app.py` lines 46-61): a 200 response carrying the `documents` list
(each document's `x`/`y` already parsed to an integer stand-in — the
float parsing itself plays no role in the properties below), a non-200
status, or a raised exception (network error / parse failure). -/
inductive GeoOutcome where
  | ok (docs : List (Int × Int))
  | httpErr (status : Nat)
  | exc (msg : String)
deriving DecidableEq, Repr

/-- `get_coordinates(address)` (`app.py` lines 46-61): on HTTP 200 with a
non-empty (truthy) `documents` list, return the first document's
`(x, y)`; on an empty list, non-200 status, or exception, fall through to
`return None, None` (modelled as `none`). -/
def get_coordinates (o : GeoOutcome) : Option (Int × Int) :=
  match o with
  | .ok [] => none
  | .ok (d :: _) => some (d.1, d.2)
  | .httpErr _ => none
  | .exc _ => none

/-- One iteration of the enrichment loop of `main` (`app.py` lines
561-563): `lng, lat = get_coordinates(address)` then
`coordinates.append((lat, lng))` — a failed lookup appends
`(None, None)`. -/
def coordPair (o : GeoOutcome) : Option Int × Option Int :=
  match get_coordinates o with
  | some (x, y) => (some y, some x)
  | none => (none, none)

/-- The enrichment loop of `main` (`app.py` lines 558-571): one
synchronous geocoding call per address, in input order, collecting the
`(lat, lng)` pairs; `geo` gives the network outcome for each address. -/
def enrich (addrs : List String) (geo : String → GeoOutcome) :
    List (Option Int × Option Int) :=
  addrs.map (fun a => coordPair (geo a))

/-- Claim C6: enrichment processes records one at a time in input order:
its output has the same length, and position `i` holds exactly the
coordinate pair of the `i`-th input address; a geocoding failure at
record `i` yields the absent pair `(none, none)` at index `i` only, and
changing the geocoding outcomes at record `i` alone never affects any
other record's coordinate. -/
theorem C6_enrich_order (addrs : List String) (geo : String → GeoOutcome) :
    (enrich addrs geo).length = addrs.length ∧
    (∀ i : Nat, (enrich addrs geo)[i]? = (addrs[i]?).map (fun a => coordPair (geo a))) ∧
    (∀ (i : Nat) (a : String), addrs[i]? = some a → get_coordinates (geo a) = none →
      (enrich addrs geo)[i]? = some ((none, none) : Option Int × Option Int)) ∧
    (∀ (geo2 : String → GeoOutcome) (i : Nat),
      (∀ (j : Nat) (b : String), j ≠ i → addrs[j]? = some b → geo b = geo2 b) →
      ∀ j, j ≠ i → (enrich addrs geo)[j]? = (enrich addrs geo2)[j]?) := by
  refine ⟨by simp [enrich], ?_, ?_, ?_⟩
  · intro i
    simp [enrich]
  · intro i a ha hfail
    simp [enrich, ha, coordPair, hfail]
  · intro geo2 i hag j hj
    simp only [enrich, List.getElem?_map]
    cases hb : addrs[j]? with
    | none => simp
    | some b => simp [hag j b hj hb]

/-- Claim C6 witness: three records with geocoding failing only for the
middle one get an absent pair exactly at index 1. -/
theorem C6_enrich_order_witness :
    (enrich ["a1", "a2", "a3"]
      (fun a => if a = "a2" then GeoOutcome.httpErr 500
                else GeoOutcome.ok [(1, 2)]))[1]? =
      some ((none, none) : Option Int × Option Int) :=
  (C6_enrich_order ["a1", "a2", "a3"]
    (fun a => if a = "a2" then GeoOutcome.httpErr 500
              else GeoOutcome.ok [(1, 2)])).2.2.1 1 "a2" rfl rfl

end SeoulRent
